import Mathlib

/-!
Shallow embedding of the KCS-MEET frontend session-coordination layer:
the `useWebRTC` hook (`src/hooks/useWebRTC.ts`), the call/join glue in
`src/App.tsx`, and the auth-token accessors in `src/api/meeting.ts`.
Stateful code is modelled as pure functions on explicit state records;
socket emissions are recorded in an `emits` trace; JS `Map`s are
association lists with JS-`Map` set/delete semantics.
-/

namespace KCSMeet

/-- A `MediaStreamTrack`: identifier plus media kind ("video"/"audio"). -/
structure Track where
  tid : String
  kind : String
deriving DecidableEq, Repr

/-- A `MediaStream` is an ordered collection of tracks (`addTrack` appends). -/
abbrev Stream := List Track

/-- A local mediasoup producer: engine-assigned id and the bound track
(`sendTransportRef.current.produce({ track })`). -/
structure Producer where
  pid : Nat
  track : Track
deriving DecidableEq, Repr

/-- A local mediasoup consumer (`recvTransportRef.current.consume(...)`):
its id, the remote producer id it consumes, kind, and the received track id. -/
structure Consumer where
  cid : String
  producerId : String
  kind : String
  trackId : String
deriving DecidableEq, Repr

/-- Per-participant stream bundle (`remoteStreamsRef` entry):
`{ camera, screen, audio }`, each independently nullable. -/
structure Bundle where
  camera : Option Stream
  screen : Option Stream
  audio : Option Stream
deriving DecidableEq, Repr

/-- A `RemoteParticipant` entry of the `remoteParticipants` React map. -/
structure RParticipant where
  odId : String
  userName : String
  cameraStream : Option Stream
  screenStream : Option Stream
  audioStream : Option Stream
deriving DecidableEq, Repr

/-- An entry of the `pendingProducers` buffer / `existingProducers` list. -/
structure NPRef where
  participantId : String
  producerId : String
  kind : String
deriving DecidableEq, Repr

/-- Payload of a `new-producer` signaling event. -/
structure NPData where
  participantId : String
  producerId : String
  kind : String
  appDataType : Option String
deriving DecidableEq, Repr

/-- Payload of a `consumed` signaling event (with the resulting track id). -/
structure ConsumedData where
  cid : String
  producerId : String
  kind : String
  producerParticipantId : String
  trackId : String
  appDataType : Option String
deriving DecidableEq, Repr

/-- Payload of a `producer-closed` signaling event. -/
structure PCData where
  participantId : String
  producerId : String
  kind : String
  appDataType : Option String
deriving DecidableEq, Repr

/-- Client→server socket emissions performed by the hook. -/
inductive Emit where
  | joinMeeting (meetingId : String)
  | createTransport (direction : String)
  | connectTransport (transportId : String)
  | produce (kind : String) (appDataType : Option String)
  | consume (participantId : String) (producerId : String) (kind : String)
      (appDataType : Option String)
  | resumeConsumer (cid : String)
  | closeProducer (meetingId : String) (pid : Nat) (kind : String)
      (appDataType : Option String)
deriving DecidableEq, Repr

/-- Ghost trace of the atomic steps of the `new-producer` handler, in the
order the source performs them (store appData, mark consumed, emit consume). -/
inductive Step where
  | storeAppData (pid : String) (t : String)
  | markConsumed (pid : String)
  | emitConsume (pid : String)
deriving DecidableEq, Repr

/-- JS `Map.set`: replace in place if the key exists, else append. -/
def msSet {α : Type} (m : List (String × α)) (k : String) (v : α) :
    List (String × α) :=
  match m with
  | [] => [(k, v)]
  | (k', v') :: rest =>
      if k' = k then (k, v) :: rest else (k', v') :: msSet rest k v

/-- JS `Map.delete`: drop every entry with the key. -/
def msDelete {α : Type} (m : List (String × α)) (k : String) :
    List (String × α) :=
  m.filter (fun kv => kv.1 != k)

/-- Does an emission list entry consume the given remote producer id? -/
def isConsumeFor (p : String) : Emit → Bool
  | .consume _ pid _ _ => pid == p
  | _ => false

/-- Is an emission an engine-side `close-producer` notification for the
given local producer id? -/
def isCloseFor (pid : Nat) : Emit → Bool
  | .closeProducer _ p _ _ => p == pid
  | _ => false

/-! ## The `useWebRTC` hook state (`src/hooks/useWebRTC.ts`) -/

/-- The mutable state of one `useWebRTC` hook instance: React state,
refs, the `pendingProducers` buffer of the join closure, plus the
recorded socket emissions (`emits`), the ghost `new-producer` step trace
(`trace`) and the set of tracks on which `stop()` was called. -/
structure WState where
  meeting : Option String
  socketConnected : Bool
  device : Bool
  localStream : Option Stream
  screenStream : Option Stream
  sendTransport : Option String
  recvTransport : Option String
  producers : List (String × Producer)
  consumers : List (String × Consumer)
  consumedProducers : List String
  producerAppData : List (String × String)
  pendingProducers : List NPRef
  remoteStreams : List (String × Bundle)
  remoteParticipants : List (String × RParticipant)
  isConnected : Bool
  isVideoEnabled : Bool
  isAudioEnabled : Bool
  isScreenSharing : Bool
  connectionStatus : String
  nextId : Nat
  emits : List Emit
  trace : List Step
  stoppedTracks : List Track
deriving DecidableEq, Repr

/-- A hook state with nothing joined, published or consumed. -/
def initW : WState :=
  { meeting := none
    socketConnected := false
    device := false
    localStream := none
    screenStream := none
    sendTransport := none
    recvTransport := none
    producers := []
    consumers := []
    consumedProducers := []
    producerAppData := []
    pendingProducers := []
    remoteStreams := []
    remoteParticipants := []
    isConnected := false
    isVideoEnabled := false
    isAudioEnabled := false
    isScreenSharing := false
    connectionStatus := "disconnected"
    nextId := 0
    emits := []
    trace := []
    stoppedTracks := [] }

/-- `startCamera` (lines 148–187), success path of `getUserMedia` yielding
the fresh video track `t`: the track is added to the accumulated local
stream (or the stream is created), `isVideoEnabled` is set, and if the
send transport and meeting are present, `getVideoTracks()[0]` of the
accumulated stream is produced and stored under slot key `'video'`. -/
def startCamera (t : Track) (s : WState) : WState :=
  let s :=
    match s.localStream with
    | some ts => { s with localStream := some (ts ++ [t]) }
    | none => { s with localStream := some [t] }
  let s := { s with isVideoEnabled := true }
  if s.sendTransport.isSome ∧ s.meeting.isSome then
    match ((s.localStream.getD []).filter (fun tr => tr.kind == "video")).head? with
    | some track =>
        { s with
          nextId := s.nextId + 1
          producers := msSet s.producers "video" { pid := s.nextId, track }
          emits := s.emits ++ [Emit.produce "video" none] }
    | none => s
  else s

/-- `startMicrophone` (lines 189–224), success path yielding the fresh
audio track `t`; mirrors `startCamera` with `getAudioTracks()[0]` and slot
key `'audio'`. -/
def startMicrophone (t : Track) (s : WState) : WState :=
  let s :=
    match s.localStream with
    | some ts => { s with localStream := some (ts ++ [t]) }
    | none => { s with localStream := some [t] }
  let s := { s with isAudioEnabled := true }
  if s.sendTransport.isSome ∧ s.meeting.isSome then
    match ((s.localStream.getD []).filter (fun tr => tr.kind == "audio")).head? with
    | some track =>
        { s with
          nextId := s.nextId + 1
          producers := msSet s.producers "audio" { pid := s.nextId, track }
          emits := s.emits ++ [Emit.produce "audio" none] }
    | none => s
  else s

/-- `startScreenShare` (lines 283–346), success path of `getDisplayMedia`
yielding video track `vt` and optionally audio track `at?`: the screen
stream ref is replaced wholesale, and with the send transport ready the
video (and, when present, audio) tracks are produced under slot keys
`'screen'` / `'screenAudio'` tagged with the screen discriminators. -/
def startScreenShare (vt : Track) (audio? : Option Track) (s : WState) :
    WState :=
  let s := { s with
    screenStream := some ([vt] ++ audio?.toList)
    isScreenSharing := true }
  if s.sendTransport.isSome ∧ s.meeting.isSome then
    let s :=
      { s with
        nextId := s.nextId + 1
        producers := msSet s.producers "screen" { pid := s.nextId, track := vt }
        emits := s.emits ++ [Emit.produce "video" (some "screen")] }
    match audio? with
    | some a =>
        { s with
          nextId := s.nextId + 1
          producers :=
            msSet s.producers "screenAudio" { pid := s.nextId, track := a }
          emits := s.emits ++ [Emit.produce "audio" (some "screenAudio")] }
    | none => s
  else s

/-- `socket.on('meeting-joined')` (lines 455–485): marks connected, stores
the existing-producer list into `pendingProducers` when non-empty, and
requests creation of the send and receive transports. -/
def onMeetingJoined (existing : List NPRef) (s : WState) : WState :=
  let s := { s with isConnected := true, connectionStatus := "connected" }
  let s :=
    if existing.length > 0 then { s with pendingProducers := existing } else s
  { s with emits := s.emits ++ [Emit.createTransport "send", Emit.createTransport "recv"] }

/-- `socket.on('transport-created')`, recv branch (lines 556–595): the
receive transport is created and, when pending producers are buffered and
the device is loaded, a `consume` request is emitted for each of them and
the buffer is cleared. -/
def onTransportCreatedRecv (tid : String) (s : WState) : WState :=
  let s := { s with recvTransport := some tid }
  if s.pendingProducers.length > 0 ∧ s.device then
    { s with
      emits := s.emits ++
        s.pendingProducers.map
          (fun pp => Emit.consume pp.participantId pp.producerId pp.kind none)
      pendingProducers := [] }
  else s

/-- `socket.on('new-producer')` (lines 599–635): skip when the producer id
is already tracked as consumed; return when the receive transport or
device is absent; otherwise store the appData tag, mark the producer id
consumed, and emit the `consume` request — in that order. -/
def onNewProducer (d : NPData) (s : WState) : WState :=
  if d.producerId ∈ s.consumedProducers then s
  else if s.recvTransport.isNone ∨ s.device = false then s
  else
    let s :=
      match d.appDataType with
      | some t =>
          { s with
            producerAppData := msSet s.producerAppData d.producerId t
            trace := s.trace ++ [Step.storeAppData d.producerId t] }
      | none => s
    let s :=
      { s with
        consumedProducers := s.consumedProducers ++ [d.producerId]
        trace := s.trace ++ [Step.markConsumed d.producerId] }
    { s with
      emits := s.emits ++
        [Emit.consume d.participantId d.producerId d.kind d.appDataType]
      trace := s.trace ++ [Step.emitConsume d.producerId] }

/-- `socket.on('consumed')` (lines 638–735): creates the consumer, resumes
it, picks the bundle slot from `(kind, appData)` — appData taken from the
response or from the stored per-producer map — and attaches the received
track to the participant's bundle and `remoteParticipants` entry. -/
def onConsumed (d : ConsumedData) (s : WState) : WState :=
  if s.recvTransport.isNone then s
  else
    let consumer : Consumer :=
      { cid := d.cid, producerId := d.producerId, kind := d.kind
        trackId := d.trackId }
    let s :=
      { s with
        consumers := msSet s.consumers d.cid consumer
        emits := s.emits ++ [Emit.resumeConsumer d.cid] }
    let appData :=
      match d.appDataType with
      | some t => some t
      | none => s.producerAppData.lookup d.producerId
    let isScreen := appData == some "screen"
    let track : Track := { tid := d.trackId, kind := d.kind }
    let bundle :=
      (s.remoteStreams.lookup d.producerParticipantId).getD
        { camera := none, screen := none, audio := none }
    let bundle :=
      if d.kind == "video" then
        if isScreen then
          { bundle with screen := some ((bundle.screen.getD []) ++ [track]) }
        else
          { bundle with camera := some ((bundle.camera.getD []) ++ [track]) }
      else if d.kind == "audio" then
        { bundle with audio := some ((bundle.audio.getD []) ++ [track]) }
      else bundle
    let s :=
      { s with
        remoteStreams := msSet s.remoteStreams d.producerParticipantId bundle }
    let existingName :=
      match s.remoteParticipants.lookup d.producerParticipantId with
      | some rp => rp.userName
      | none => "Participant"
    { s with
      remoteParticipants :=
        msSet s.remoteParticipants d.producerParticipantId
          { odId := d.producerParticipantId
            userName := existingName
            cameraStream := bundle.camera
            screenStream := bundle.screen
            audioStream := bundle.audio } }

/-- The consumer-closing loop of `socket.on('producer-closed')` (lines
775–782): close and delete the first consumer bound to the producer. -/
def closeFirstConsumer (producerId : String) (s : WState) : WState :=
  match s.consumers.find? (fun kv => kv.2.producerId == producerId) with
  | some (cid, _) => { s with consumers := msDelete s.consumers cid }
  | none => s

/-- `socket.on('producer-closed')` (lines 752–831): unmark the consumed
state, resolve the screen discriminator from the event or the stored
appData, drop that stored appData, close the first consumer bound to the
producer, clear only the affected bundle slot (screen vs camera chosen by
the discriminator, audio cleared for any audio close), and mirror the
surviving slots into the `remoteParticipants` entry. -/
def onProducerClosed (d : PCData) (s : WState) : WState :=
  let s :=
    { s with
      consumedProducers := s.consumedProducers.filter (fun p => p != d.producerId) }
  let appData :=
    match d.appDataType with
    | some t => some t
    | none => s.producerAppData.lookup d.producerId
  let isScreen := appData == some "screen"
  let s := { s with producerAppData := msDelete s.producerAppData d.producerId }
  let s := closeFirstConsumer d.producerId s
  match s.remoteStreams.lookup d.participantId with
  | none => s
  | some streams =>
      let streams :=
        if d.kind == "video" then
          if isScreen ∧ streams.screen.isSome then
            { streams with screen := none }
          else if ¬ isScreen ∧ streams.camera.isSome then
            { streams with camera := none }
          else streams
        else if d.kind == "audio" ∧ streams.audio.isSome then
          { streams with audio := none }
        else streams
      let s :=
        { s with remoteStreams := msSet s.remoteStreams d.participantId streams }
      match s.remoteParticipants.lookup d.participantId with
      | some rp =>
          { s with
            remoteParticipants :=
              msSet s.remoteParticipants d.participantId
                { rp with
                  cameraStream := streams.camera
                  screenStream := streams.screen
                  audioStream := streams.audio } }
      | none => s

/-- `socket.on('participant-left')` (lines 741–750): unconditionally drops
the participant's `remoteParticipants` entry and stream bundle. -/
def onParticipantLeft (participantId : String) (s : WState) : WState :=
  { s with
    remoteParticipants := msDelete s.remoteParticipants participantId
    remoteStreams := msDelete s.remoteStreams participantId }

/-- `leaveMeeting` (lines 881–918): closes and clears every consumer and
producer, clears the consumed-producer set and remote stream bundles,
closes and nulls both transports, stops and nulls the local and screen
streams, disconnects the socket, drops the device, and resets the React
state. (`producerAppDataRef` is not touched by the source.) -/
def leaveMeeting (s : WState) : WState :=
  { s with
    consumers := []
    producers := []
    consumedProducers := []
    remoteStreams := []
    sendTransport := none
    recvTransport := none
    stoppedTracks :=
      s.stoppedTracks ++ s.localStream.getD [] ++ s.screenStream.getD []
    localStream := none
    screenStream := none
    socketConnected := false
    device := false
    isConnected := false
    isVideoEnabled := false
    isAudioEnabled := false
    isScreenSharing := false
    connectionStatus := "disconnected"
    remoteParticipants := [] }

/-! ## Transport negotiation callbacks (`src/hooks/useWebRTC.ts`) -/

/-- The `transport-connected` matcher installed by `transport.on('connect')`
(lines 502–519 and 560–577): the callback fires only when the
acknowledgment's `transportId` equals this transport's id. -/
def transportConnectedHandler (transportId : String) (respTransportId : String) :
    Bool :=
  respTransportId == transportId

/-- A `produced` acknowledgment: the server-assigned producer id plus the
optionally echoed request id. -/
structure ProducedResponse where
  producerId : String
  requestId : Option String
deriving DecidableEq, Repr

/-- The `produced` matcher installed by `transport.on('produce')` (lines
536–543): `!response.requestId || response.requestId === requestId` — the
callback fires when the acknowledgment echoes no request id at all, or
echoes the matching one. -/
def producedHandler (requestId : String) (resp : ProducedResponse) : Bool :=
  match resp.requestId with
  | none => true
  | some r => r == requestId

/-! ## App-level call / join glue (`src/App.tsx`) -/

/-- The slice of `App` component state the call and join flows touch,
plus a counter of `webRTCJoin()` invocations and the ordered list of
error log lines. -/
structure AppState where
  activeCallId : Option String
  callStatus : String
  isInCall : Bool
  currentMeeting : Option String
  shouldAutoJoin : Bool
  isWaiting : Bool
  waitingPosition : Option Nat
  joins : Nat
  errorLogs : List String
deriving DecidableEq, Repr

/-- An `App` state with no call, meeting or join pending. -/
def initApp : AppState :=
  { activeCallId := none
    callStatus := ""
    isInCall := false
    currentMeeting := none
    shouldAutoJoin := false
    isWaiting := false
    waitingPosition := none
    joins := 0
    errorLogs := [] }

/-- `handleInitiateCall` (App.tsx lines 618–638) with a non-empty callee:
sets `callStatus` to `Calling...`, then on REST success records the call
id (`some callId`) and waits — no media join; on failure logs and resets
the status. -/
def handleInitiateCall (result : Option String) (s : AppState) : AppState :=
  let s := { s with callStatus := "Calling..." }
  match result with
  | some callId => { s with activeCallId := some callId }
  | none =>
      { s with
        callStatus := ""
        errorLogs := s.errorLogs ++ ["initiate-failed"] }

/-- `socket.on('call-accepted')` (App.tsx lines 187–200): marks the call
in progress and, when the meeting fetch succeeds, stores the meeting and
requests the auto-join. -/
def onCallAccepted (meetingFetch : Option String) (s : AppState) : AppState :=
  let s := { s with callStatus := "In call", isInCall := true }
  match meetingFetch with
  | some mid => { s with currentMeeting := some mid, shouldAutoJoin := true }
  | none => s

/-- `socket.on('call-rejected')` (App.tsx lines 202–209): clears the call. -/
def onCallRejected (s : AppState) : AppState :=
  { s with
    callStatus := "Call declined"
    activeCallId := none
    isInCall := false
    currentMeeting := none }

/-- The auto-join effect (App.tsx lines 388–394): when a meeting is set,
auto-join was requested and the client is not waiting for admission,
`webRTCJoin()` runs and the request flag is cleared. -/
def autoJoinEffect (s : AppState) : AppState :=
  if s.currentMeeting.isSome ∧ s.shouldAutoJoin ∧ ¬ s.isWaiting then
    { s with joins := s.joins + 1, shouldAutoJoin := false }
  else s

/-- Events of the outgoing-call lifecycle, each carrying the outcome of
its REST round-trip. -/
inductive CallEvent where
  | initiate (result : Option String)
  | accepted (meetingFetch : Option String)
  | rejected
deriving DecidableEq, Repr

/-- Is this event the remote `call-accepted` transition? -/
def CallEvent.isAccepted : CallEvent → Bool
  | .accepted _ => true
  | _ => false

/-- One event step: the handler followed by the React auto-join effect. -/
def callStep (e : CallEvent) (s : AppState) : AppState :=
  autoJoinEffect
    (match e with
     | .initiate r => handleInitiateCall r s
     | .accepted f => onCallAccepted f s
     | .rejected => onCallRejected s)

/-- A run of the outgoing-call lifecycle over a list of events. -/
def runCall (es : List CallEvent) (s : AppState) : AppState :=
  es.foldl (fun s e => callStep e s) s

/-- JS `String.prototype.trim()`: strip leading and trailing whitespace. -/
def jsTrim (s : String) : String :=
  String.mk
    (((s.data.dropWhile Char.isWhitespace).reverse.dropWhile
        Char.isWhitespace).reverse)

/-- Outcome of `apiJoinMeeting` as used by `handleJoinMeeting`. -/
structure JoinData where
  canJoin : Bool
  meetingId : String
deriving DecidableEq, Repr

/-- `handleJoinMeeting` (App.tsx lines 551–585): empty code or failed
join/guard logs and stops; otherwise the meeting is stored and
`checkAdmissionRequired` is consulted — `admCheck = some b` models a
successful check answering `required = b`, `none` models a failed or
errored check. Only `success && required` routes through
`requestAdmission` (`admReq`, `some position?` on success); every other
check outcome reaches the `else` branch which requests the auto-join. -/
def handleJoinMeeting (code : String) (joinRes : Option JoinData)
    (admCheck : Option Bool) (admReq : Option (Option Nat)) (s : AppState) :
    AppState :=
  if jsTrim code = "" then
    { s with errorLogs := s.errorLogs ++ ["no-code"] }
  else
    match joinRes with
    | none => { s with errorLogs := s.errorLogs ++ ["join-failed"] }
    | some jd =>
        if jd.canJoin = false then
          { s with errorLogs := s.errorLogs ++ ["cannot-join"] }
        else
          let s := { s with currentMeeting := some jd.meetingId }
          match admCheck with
          | some true =>
              match admReq with
              | some pos? =>
                  { s with
                    isWaiting := true
                    waitingPosition :=
                      some (match pos? with
                            | some p => if p = 0 then 1 else p
                            | none => 1) }
              | none => s
          | _ => { s with shouldAutoJoin := true }

/-! ## Auth token accessors (`src/api/meeting.ts`, lines 4–16) -/

/-- The module-level `authToken` variable plus the `localStorage` cell
keyed `authToken`. -/
structure TokenState where
  authToken : String
  storage : Option String
deriving DecidableEq, Repr

/-- `setAuthToken`: assigns the in-memory variable and persists to
`localStorage`. -/
def setAuthToken (t : String) (_s : TokenState) : TokenState :=
  { authToken := t, storage := some t }

/-- `getAuthToken`: when the in-memory token is falsy (empty), it is
refilled from `localStorage.getItem('authToken') || ''`; the (possibly
updated) token is returned. -/
def getAuthToken (s : TokenState) : String × TokenState :=
  if s.authToken = "" then
    let v := s.storage.getD ""
    (v, { s with authToken := v })
  else
    (s.authToken, s)

/-! ## Concrete states used by the closed theorems -/

/-- Is an emission any engine-side `close-producer` notification? -/
def isCloseAny : Emit → Bool
  | .closeProducer _ _ _ _ => true
  | _ => false

/-- A hook state joined to meeting `mid` with the send transport ready —
the position from which local publishing is possible. -/
def readyW (mid tid : String) : WState :=
  { initW with meeting := some mid, sendTransport := some tid }

/-- A hook state joined to meeting `m1` with the device loaded but the
receive transport not yet created. -/
def c5Start : WState :=
  { initW with meeting := some "m1", device := true }

/-- A `new-producer` announcement for Alice's camera producer `p1`. -/
def d5 : NPData :=
  { participantId := "alice", producerId := "p1", kind := "video"
    appDataType := none }

/-- A hook state with the receive transport and device ready. -/
def c2Start : WState :=
  { initW with
    meeting := some "m1"
    recvTransport := some "rt"
    device := true }

/-- A `new-producer` announcement for Alice's screen producer `p9`. -/
def d2 : NPData :=
  { participantId := "alice", producerId := "p9", kind := "video"
    appDataType := some "screen" }

/-- A hook state in which remote participant `bob` has exactly one
populated slot (camera, track `c1` consumed from producer `p1`). -/
def c8State : WState :=
  { initW with
    remoteStreams :=
      [("bob",
        { camera := some [{ tid := "c1", kind := "video" }]
          screen := none, audio := none })]
    remoteParticipants :=
      [("bob",
        { odId := "bob", userName := "Bob"
          cameraStream := some [{ tid := "c1", kind := "video" }]
          screenStream := none, audioStream := none })]
    consumers :=
      [("cons1",
        { cid := "cons1", producerId := "p1", kind := "video"
          trackId := "c1" })]
    consumedProducers := ["p1"] }

/-- A successful join answer for meeting `m1` with `canJoin` granted. -/
def c7jd : JoinData := { canJoin := true, meetingId := "m1" }

/-- A partially-joined hook state: send transport created, receive
transport absent, live local and screen capture streams. -/
def c4w : WState :=
  { initW with
    meeting := some "m1"
    socketConnected := true
    sendTransport := some "T"
    localStream := some [{ tid := "lt", kind := "video" }]
    screenStream := some [{ tid := "sc", kind := "video" }]
    producers :=
      [("video", { pid := 0, track := { tid := "lt", kind := "video" } })] }

end KCSMeet

namespace KCSMeet

/-! ## Map helper lemmas -/

theorem msSet_lookup_self {α : Type} (m : List (String × α)) (k : String)
    (v : α) : (msSet m k v).lookup k = some v := by
  induction m with
  | nil => simp [msSet, List.lookup]
  | cons hd tl ih =>
      cases hd with
      | mk k' v' =>
          by_cases h : k' = k
          · simp [msSet, h, List.lookup]
          · have hk : (k == k') = false := by
              simp only [beq_eq_false_iff_ne, ne_eq]
              exact fun h' => h h'.symm
            simp [msSet, h, List.lookup, hk, ih]

theorem msDelete_lookup_self {α : Type} (m : List (String × α))
    (k : String) : (msDelete m k).lookup k = none := by
  induction m with
  | nil => simp [msDelete]
  | cons hd tl ih =>
      cases hd with
      | mk k' v' =>
          by_cases h : k' = k
          · simpa [msDelete, List.filter_cons, h] using ih
          · have hk : (k == k') = false := by
              simp only [beq_eq_false_iff_ne, ne_eq]
              exact fun h' => h h'.symm
            have hk' : (k' != k) = true := by
              simp only [bne_iff_ne, ne_eq]
              exact h
            simp only [msDelete, List.filter_cons, hk'] at *
            simp [List.lookup, hk, ih]

/-! ## C10 -/

/-- C10: `setAuthToken t` followed by `getAuthToken` returns `t`; with no
in-memory token, `getAuthToken` returns the persisted token, or `""` when
none is persisted. -/
theorem C10_token_roundtrip :
    (∀ (t : String) (s : TokenState),
        (getAuthToken (setAuthToken t s)).1 = t) ∧
    (∀ s : TokenState, s.authToken = "" →
        (getAuthToken s).1 = s.storage.getD "") := by
  constructor
  · intro t s
    by_cases h : t = ""
    · simp [setAuthToken, getAuthToken, h]
    · simp [setAuthToken, getAuthToken, h]
  · intro s h
    simp [getAuthToken, h]

/-- C10 witness: the round trip and the storage fallback at concrete
inputs. -/
theorem C10_token_roundtrip_witness :
    (getAuthToken (setAuthToken "tok" ⟨"", none⟩)).1 = "tok" ∧
    (getAuthToken ⟨"", some "abc"⟩).1 = "abc" :=
  ⟨C10_token_roundtrip.1 "tok" ⟨"", none⟩,
   C10_token_roundtrip.2 ⟨"", some "abc"⟩ rfl⟩

/-! ## C4 -/

/-- C4: invoking `leaveMeeting` from any state — including any
partially-joined state — leaves zero producers, zero consumers, both
transport references null, the local and screen capture streams stopped
and null, and the socket disconnected; invoking it a second time changes
nothing. -/
theorem C4_leaveMeeting_teardown (s : WState) :
    (leaveMeeting s).producers = [] ∧
    (leaveMeeting s).consumers = [] ∧
    (leaveMeeting s).sendTransport = none ∧
    (leaveMeeting s).recvTransport = none ∧
    (leaveMeeting s).localStream = none ∧
    (leaveMeeting s).screenStream = none ∧
    (leaveMeeting s).socketConnected = false ∧
    (∀ t ∈ s.localStream.getD [], t ∈ (leaveMeeting s).stoppedTracks) ∧
    (∀ t ∈ s.screenStream.getD [], t ∈ (leaveMeeting s).stoppedTracks) ∧
    leaveMeeting (leaveMeeting s) = leaveMeeting s := by
  refine ⟨rfl, rfl, rfl, rfl, rfl, rfl, rfl, ?_, ?_, ?_⟩
  · intro t ht
    simp [leaveMeeting, List.mem_append]
    exact Or.inr (Or.inl ht)
  · intro t ht
    simp [leaveMeeting, List.mem_append]
    exact Or.inr (Or.inr ht)
  · simp [leaveMeeting]

/-- C4 witness: teardown from the concrete partially-joined state `c4w`
(send transport only, live capture streams). -/
theorem C4_leaveMeeting_teardown_witness :
    Track.mk "lt" "video" ∈ (leaveMeeting c4w).stoppedTracks ∧
    Track.mk "sc" "video" ∈ (leaveMeeting c4w).stoppedTracks ∧
    leaveMeeting (leaveMeeting c4w) = leaveMeeting c4w :=
  ⟨(C4_leaveMeeting_teardown c4w).2.2.2.2.2.2.2.1 (Track.mk "lt" "video")
      (by decide),
   (C4_leaveMeeting_teardown c4w).2.2.2.2.2.2.2.2.1 (Track.mk "sc" "video")
      (by decide),
   (C4_leaveMeeting_teardown c4w).2.2.2.2.2.2.2.2.2⟩

/-! ## C2 -/

/-- C2: with the receive transport and device ready, a fresh
`new-producer` announcement stores the tag, marks the producer id
consumed, and only then emits the consume request (the mark strictly
precedes the emit in the handler's step trace); a duplicate announcement
delivered before any consumption completes leaves the state unchanged
(ignored, not an error), so exactly one consume request is emitted for
the producer id. -/
theorem C2_new_producer_dedup (d : NPData) (s : WState) (rt : String)
    (hrt : s.recvTransport = some rt) (hdev : s.device = true)
    (hfresh : d.producerId ∉ s.consumedProducers) :
    onNewProducer d (onNewProducer d s) = onNewProducer d s ∧
    (onNewProducer d s).emits.countP (isConsumeFor d.producerId) =
      s.emits.countP (isConsumeFor d.producerId) + 1 ∧
    (onNewProducer d s).trace =
      s.trace ++
        (match d.appDataType with
         | some t => [Step.storeAppData d.producerId t]
         | none => []) ++
        [Step.markConsumed d.producerId, Step.emitConsume d.producerId] := by
  cases hA : d.appDataType with
  | none =>
      refine ⟨?_, ?_, ?_⟩ <;>
        simp [onNewProducer, hfresh, hrt, hdev, hA, List.countP_append,
          isConsumeFor, List.mem_append]
  | some t =>
      refine ⟨?_, ?_, ?_⟩ <;>
        simp [onNewProducer, hfresh, hrt, hdev, hA, List.countP_append,
          isConsumeFor, List.mem_append]

/-- C2 witness: duplicate announcement of screen producer `p9` at the
concrete ready state `c2Start`. -/
theorem C2_new_producer_dedup_witness :
    onNewProducer d2 (onNewProducer d2 c2Start) = onNewProducer d2 c2Start ∧
    (onNewProducer d2 c2Start).emits.countP (isConsumeFor "p9") =
      c2Start.emits.countP (isConsumeFor "p9") + 1 :=
  ⟨(C2_new_producer_dedup d2 c2Start "rt" rfl rfl (by decide)).1,
   (C2_new_producer_dedup d2 c2Start "rt" rfl rfl (by decide)).2.1⟩

/-! ## C6 -/

/-- C6 counterexample: a `produced` acknowledgment carrying no request id
at all completes the produce negotiation for outstanding request `req-1`,
although its correlation token does not match that request. -/
theorem C6_counterexample :
    producedHandler "req-1" { producerId := "srv-p", requestId := none } =
      true ∧
    (none : Option String) ≠ some "req-1" :=
  ⟨rfl, by decide⟩

/-- C6 (amended): the connect-negotiation callback completes exactly for
the acknowledgment whose transport id matches the outstanding transport;
the produce-negotiation callback ignores an acknowledgment carrying a
non-matching request id, but it also completes for an acknowledgment that
carries no request id at all. -/
theorem C6_correlation_matching :
    (∀ tid resp, transportConnectedHandler tid resp = true ↔ resp = tid) ∧
    (∀ rid resp, producedHandler rid resp = true ↔
        (resp.requestId = none ∨ resp.requestId = some rid)) := by
  constructor
  · intro tid resp
    simp [transportConnectedHandler]
  · intro rid resp
    cases h : resp.requestId <;> simp [producedHandler, h]

/-! ## C1 -/

/-- C1 counterexample: publishing camera track `t1` and then camera track
`t2` into the camera slot from the ready state neither leaves the slot
bound to `t2` (the slot's producer re-produces `t1`, the first video
track of the accumulated local stream) nor sends any engine-side close
notification, so the claim fails at this input. -/
theorem C1_counterexample :
    ¬ ((((startCamera (Track.mk "t2" "video")
            (startCamera (Track.mk "t1" "video")
              (readyW "m1" "T"))).producers.lookup "video").map
          Producer.track = some (Track.mk "t2" "video")) ∧
       0 < (startCamera (Track.mk "t2" "video")
              (startCamera (Track.mk "t1" "video")
                (readyW "m1" "T"))).emits.countP isCloseAny) := by
  decide

/-- C1 (amended): publishing a second track into an occupied slot leaves
exactly one registry entry for the slot, but no engine-side close
notification is ever sent and the superseded producer is never closed;
for the camera and microphone slots the second publish re-produces the
first track of the accumulated local stream (`t1`), while for the screen
slot (whose capture stream is replaced wholesale) it produces `t2`. -/
theorem C1_double_publish (mid tid : String) (t1 t2 a1 a2 : Track)
    (h1 : t1.kind = "video") (h2 : t2.kind = "video")
    (ha1 : a1.kind = "audio") (ha2 : a2.kind = "audio") :
    ((startCamera t2 (startCamera t1 (readyW mid tid))).producers.lookup
        "video" = some { pid := 1, track := t1 } ∧
     (startCamera t2 (startCamera t1 (readyW mid tid))).producers.countP
        (fun kv => kv.1 == "video") = 1 ∧
     (startCamera t2 (startCamera t1 (readyW mid tid))).emits.countP
        isCloseAny = 0) ∧
    ((startMicrophone a2 (startMicrophone a1 (readyW mid tid))).producers.lookup
        "audio" = some { pid := 1, track := a1 } ∧
     (startMicrophone a2 (startMicrophone a1 (readyW mid tid))).producers.countP
        (fun kv => kv.1 == "audio") = 1 ∧
     (startMicrophone a2 (startMicrophone a1 (readyW mid tid))).emits.countP
        isCloseAny = 0) ∧
    ((startScreenShare t2 none
        (startScreenShare t1 none (readyW mid tid))).producers.lookup
        "screen" = some { pid := 1, track := t2 } ∧
     (startScreenShare t2 none
        (startScreenShare t1 none (readyW mid tid))).producers.countP
        (fun kv => kv.1 == "screen") = 1 ∧
     (startScreenShare t2 none
        (startScreenShare t1 none (readyW mid tid))).emits.countP
        isCloseAny = 0) := by
  refine ⟨⟨?_, ?_, ?_⟩, ⟨?_, ?_, ?_⟩, ⟨?_, ?_, ?_⟩⟩ <;>
    simp [startCamera, startMicrophone, startScreenShare, readyW, initW,
      msSet, isCloseAny, h1, h2, ha1, ha2, List.lookup, List.countP_cons]

/-! ## C5 -/

/-- C5 counterexample: the announcement order is not convergent — when
`new-producer p1` arrives before the receive transport is created, no
consume request is ever emitted for `p1` and it is never marked consumed,
whereas the opposite order consumes it; the two final states differ. -/
theorem C5_counterexample :
    (onTransportCreatedRecv "rt" (onNewProducer d5 c5Start)).emits.countP
        (isConsumeFor "p1") = 0 ∧
    "p1" ∉ (onTransportCreatedRecv "rt"
        (onNewProducer d5 c5Start)).consumedProducers ∧
    (onNewProducer d5 (onTransportCreatedRecv "rt" c5Start)).emits.countP
        (isConsumeFor "p1") = 1 ∧
    onTransportCreatedRecv "rt" (onNewProducer d5 c5Start) ≠
      onNewProducer d5 (onTransportCreatedRecv "rt" c5Start) := by
  decide

/-- C5 (amended): a fresh `new-producer` announcement arriving after the
receive transport and device are ready is consumed (the consume request
is emitted and the id marked), and the eventual `consumed` reply attaches
the received track to the participant's bundle; an announcement arriving
before the receive transport exists is dropped with no effect at all;
producers present at join time are instead delivered in the
`meeting-joined` existing-producer list, buffered, and consumed when the
receive transport is created. -/
theorem C5_announcement_order (d : NPData) (ps : List NPRef) (s : WState)
    (rt : String) (hfresh : d.producerId ∉ s.consumedProducers) :
    (s.recvTransport = some rt → s.device = true →
      Emit.consume d.participantId d.producerId d.kind d.appDataType ∈
        (onNewProducer d s).emits ∧
      d.producerId ∈ (onNewProducer d s).consumedProducers) ∧
    (s.recvTransport = none → onNewProducer d s = s) ∧
    (s.device = true → s.pendingProducers = [] →
      ∀ pp ∈ ps,
        Emit.consume pp.participantId pp.producerId pp.kind none ∈
          (onTransportCreatedRecv rt (onMeetingJoined ps s)).emits) ∧
    (s.recvTransport = some rt → s.device = true → d.appDataType = none →
      d.kind = "video" → s.producerAppData.lookup d.producerId = none →
      ∀ cid trackId, ∃ b,
        (onConsumed
            { cid := cid, producerId := d.producerId, kind := d.kind
              producerParticipantId := d.participantId, trackId := trackId
              appDataType := none }
            (onNewProducer d s)).remoteStreams.lookup d.participantId =
          some b ∧
        ∃ ts, b.camera = some (ts ++ [{ tid := trackId, kind := d.kind }])) := by
  refine ⟨?_, ?_, ?_, ?_⟩
  · intro hrt hdev
    constructor <;>
      cases hA : d.appDataType <;>
        simp [onNewProducer, hfresh, hrt, hdev, hA, List.mem_append]
  · intro hrt
    simp [onNewProducer, hfresh, hrt]
  · intro hdev hpend pp hpp
    have hps : ps.length > 0 :=
      List.length_pos.mpr (List.ne_nil_of_mem hpp)
    simp [onMeetingJoined, onTransportCreatedRecv, hdev, hpend, hps,
      List.mem_append, List.mem_map]
    exact Or.inr ⟨pp, hpp, rfl, rfl, rfl⟩
  · intro hrt hdev hnA hkind hstore cid trackId
    refine
      ⟨{ (s.remoteStreams.lookup d.participantId).getD
            { camera := none, screen := none, audio := none } with
          camera := some
            ((((s.remoteStreams.lookup d.participantId).getD
                { camera := none, screen := none, audio := none }).camera.getD
              []) ++ [{ tid := trackId, kind := d.kind }]) },
        ?_,
        (((s.remoteStreams.lookup d.participantId).getD
            { camera := none, screen := none, audio := none }).camera.getD []),
        rfl⟩
    simp [onConsumed, onNewProducer, hfresh, hrt, hdev, hnA, hkind, hstore,
      msSet_lookup_self]

/-- C5 witness: the amended behaviour at a concrete announcement, state
and reply. -/
theorem C5_announcement_order_witness :
    (Emit.consume "alice" "p1" "video" none ∈
        (onNewProducer d5 c2Start).emits) ∧
    (onNewProducer d5 c5Start) = c5Start ∧
    (∃ b, (onConsumed
        { cid := "c9", producerId := "p1", kind := "video"
          producerParticipantId := "alice", trackId := "trk"
          appDataType := none }
        (onNewProducer d5 c2Start)).remoteStreams.lookup "alice" = some b ∧
      ∃ ts, b.camera = some (ts ++ [{ tid := "trk", kind := "video" }])) :=
  ⟨((C5_announcement_order d5 [] c2Start "rt" (by decide)).1 rfl rfl).1,
   (C5_announcement_order d5 [] c5Start "rt" (by decide)).2.1 rfl,
   (C5_announcement_order d5 [] c2Start "rt" (by decide)).2.2.2 rfl rfl rfl
     rfl rfl "c9" "trk"⟩

/-! ## Frame lemma for the consumer-closing loop -/

theorem closeFirstConsumer_remoteStreams (p : String) (s : WState) :
    (closeFirstConsumer p s).remoteStreams = s.remoteStreams := by
  unfold closeFirstConsumer
  cases h : s.consumers.find? (fun kv => kv.2.producerId == p) with
  | none => rfl
  | some kv => cases kv with | mk cid c => rfl

/-! ## C8 -/

/-- C8 counterexample: closing remote participant `bob`'s only populated
slot (camera producer `p1`) leaves `bob`'s bundle in the registry with
every slot empty — the bundle is not removed, refuting the claim that a
close leaving no slot populated removes the entire bundle. -/
theorem C8_counterexample :
    (onProducerClosed
        { participantId := "bob", producerId := "p1", kind := "video"
          appDataType := none } c8State).remoteStreams.lookup "bob" =
      some { camera := none, screen := none, audio := none } ∧
    ((onProducerClosed
        { participantId := "bob", producerId := "p1", kind := "video"
          appDataType := none } c8State).remoteParticipants.lookup
      "bob").isSome = true := by
  decide

/-- C8 (amended): `producer-closed` clears only the affected slot and
always retains the participant's bundle in the registry, even when no
slot remains populated; the bundle is removed only by `participant-left`,
which removes it (and the participant entry) unconditionally. -/
theorem C8_bundle_retention (d : PCData) (s : WState) (b : Bundle)
    (q : String) (hq : s.remoteStreams.lookup d.participantId = some b) :
    ((onProducerClosed d s).remoteStreams.lookup d.participantId).isSome =
      true ∧
    (onParticipantLeft q s).remoteStreams.lookup q = none ∧
    (onParticipantLeft q s).remoteParticipants.lookup q = none := by
  refine ⟨?_, ?_, ?_⟩
  · simp only [onProducerClosed, closeFirstConsumer_remoteStreams]
    simp only [hq]
    split <;> simp [msSet_lookup_self]
  · simp [onParticipantLeft, msDelete_lookup_self]
  · simp [onParticipantLeft, msDelete_lookup_self]

/-- C8 witness: retention and removal at the concrete state `c8State`. -/
theorem C8_bundle_retention_witness :
    ((onProducerClosed
        { participantId := "bob", producerId := "p1", kind := "video"
          appDataType := none } c8State).remoteStreams.lookup
      "bob").isSome = true ∧
    (onParticipantLeft "bob" c8State).remoteStreams.lookup "bob" = none :=
  ⟨(C8_bundle_retention
      { participantId := "bob", producerId := "p1", kind := "video"
        appDataType := none } c8State
      { camera := some [{ tid := "c1", kind := "video" }]
        screen := none, audio := none } "bob" (by decide)).1,
   (C8_bundle_retention
      { participantId := "bob", producerId := "p1", kind := "video"
        appDataType := none } c8State
      { camera := some [{ tid := "c1", kind := "video" }]
        screen := none, audio := none } "bob" (by decide)).2.1⟩

/-! ## C9 -/

/-- C9: closing a remote participant's screen-video producer (kind
`video`, discriminator `screen`) leaves the bundle present with the
camera slot's stream unchanged and the screen slot cleared. -/
theorem C9_screen_close_frame (s : WState) (q pid : String) (b : Bundle)
    (c : Stream) (hb : s.remoteStreams.lookup q = some b)
    (hc : b.camera = some c) :
    ∃ b', (onProducerClosed
        { participantId := q, producerId := pid, kind := "video"
          appDataType := some "screen" } s).remoteStreams.lookup q =
      some b' ∧ b'.camera = some c ∧ b'.screen = none := by
  cases hbs : b.screen with
  | none =>
      refine ⟨b, ?_, hc, hbs⟩
      simp only [onProducerClosed, closeFirstConsumer_remoteStreams]
      simp only [hb]
      simp only [hbs]
      split <;> simp [msSet_lookup_self]
  | some scr =>
      refine ⟨{ b with screen := none }, ?_, hc, rfl⟩
      simp only [onProducerClosed, closeFirstConsumer_remoteStreams]
      simp only [hb]
      simp only [hbs]
      split <;> simp [msSet_lookup_self]

/-- C9 witness: closing the screen producer of a participant whose
camera and screen slots are both populated preserves the camera stream. -/
theorem C9_screen_close_frame_witness :
    ∃ b', (onProducerClosed
        { participantId := "bob", producerId := "p2", kind := "video"
          appDataType := some "screen" }
        { c8State with
          remoteStreams :=
            [("bob",
              { camera := some [{ tid := "c1", kind := "video" }]
                screen := some [{ tid := "s1", kind := "video" }]
                audio := none })] }).remoteStreams.lookup "bob" =
      some b' ∧
    b'.camera = some [{ tid := "c1", kind := "video" }] ∧
    b'.screen = none :=
  C9_screen_close_frame
    { c8State with
      remoteStreams :=
        [("bob",
          { camera := some [{ tid := "c1", kind := "video" }]
            screen := some [{ tid := "s1", kind := "video" }]
            audio := none })] }
    "bob" "p2"
    { camera := some [{ tid := "c1", kind := "video" }]
      screen := some [{ tid := "s1", kind := "video" }]
      audio := none }
    [{ tid := "c1", kind := "video" }] (by decide) rfl

/-! ## C3 -/

theorem callStep_no_accept (e : CallEvent) (s : AppState)
    (he : e.isAccepted = false) (hs : s.shouldAutoJoin = false) :
    (callStep e s).joins = s.joins ∧
    (callStep e s).shouldAutoJoin = false := by
  cases e with
  | initiate r =>
      cases r <;>
        simp [callStep, handleInitiateCall, autoJoinEffect, hs]
  | accepted f => simp [CallEvent.isAccepted] at he
  | rejected => simp [callStep, onCallRejected, autoJoinEffect, hs]

theorem runCall_no_accept (es : List CallEvent) :
    ∀ s : AppState, s.shouldAutoJoin = false →
      (∀ e ∈ es, e.isAccepted = false) →
      (runCall es s).joins = s.joins ∧
      (runCall es s).shouldAutoJoin = false := by
  induction es with
  | nil =>
      intro s hs _
      exact ⟨rfl, hs⟩
  | cons e tl ih =>
      intro s hs hna
      have he := hna e (List.mem_cons_self e tl)
      have h1 := callStep_no_accept e s he hs
      have h2 :=
        ih (callStep e s) h1.2 (fun x hx => hna x (List.mem_cons_of_mem e hx))
      exact ⟨h2.1.trans h1.1, h2.2⟩

/-- C3: across any sequence of outgoing-call events with no
`call-accepted`, starting with no pending auto-join, the WebRTC join
never runs; initiating a call only records the call identifier (and the
status line) and does not touch the meeting, join flag or call flag; the
`call-accepted` event (with a successful meeting fetch) is what triggers
exactly one join. -/
theorem C3_no_join_before_accept (es : List CallEvent) (s : AppState)
    (hs : s.shouldAutoJoin = false)
    (hna : ∀ e ∈ es, e.isAccepted = false) :
    ((runCall es s).joins = s.joins ∧
     (runCall es s).shouldAutoJoin = false) ∧
    (∀ r, (handleInitiateCall r s).joins = s.joins ∧
        (handleInitiateCall r s).shouldAutoJoin = s.shouldAutoJoin ∧
        (handleInitiateCall r s).currentMeeting = s.currentMeeting ∧
        (handleInitiateCall r s).isInCall = s.isInCall ∧
        ∀ c, r = some c → (handleInitiateCall r s).activeCallId = some c) ∧
    (∀ mid, s.isWaiting = false →
        (callStep (CallEvent.accepted (some mid)) s).joins = s.joins + 1) := by
  refine ⟨runCall_no_accept es s hs hna, ?_, ?_⟩
  · intro r
    cases r <;> simp [handleInitiateCall]
  · intro mid hw
    simp [callStep, onCallAccepted, autoJoinEffect, hw]

/-- C3 witness: a concrete outgoing-call trace without `call-accepted`
performs no join; the `call-accepted` step performs one. -/
theorem C3_no_join_before_accept_witness :
    (runCall
        [CallEvent.initiate (some "c1"), CallEvent.initiate none,
          CallEvent.rejected] initApp).joins = 0 ∧
    (runCall
        [CallEvent.initiate (some "c1"), CallEvent.initiate none,
          CallEvent.rejected] initApp).shouldAutoJoin = false ∧
    (callStep (CallEvent.accepted (some "m1")) initApp).joins = 1 :=
  ⟨(C3_no_join_before_accept
      [CallEvent.initiate (some "c1"), CallEvent.initiate none,
        CallEvent.rejected] initApp rfl (by decide)).1.1,
   (C3_no_join_before_accept
      [CallEvent.initiate (some "c1"), CallEvent.initiate none,
        CallEvent.rejected] initApp rfl (by decide)).1.2,
   (C3_no_join_before_accept
      [CallEvent.initiate (some "c1"), CallEvent.initiate none,
        CallEvent.rejected] initApp rfl (by decide)).2.2 "m1" rfl⟩

/-! ## C7 -/

/-- C7 counterexample: with a failed admission check (`none`), the join
flow silently requests the auto-join — no waiting room, no explicit
error — refuting the fail-closed claim at this input. -/
theorem C7_counterexample :
    (handleJoinMeeting "CODE" (some c7jd) none none initApp).shouldAutoJoin =
      true ∧
    (handleJoinMeeting "CODE" (some c7jd) none none initApp).isWaiting =
      false ∧
    (handleJoinMeeting "CODE" (some c7jd) none none initApp).errorLogs =
      [] := by
  decide

/-- C7 (amended): when the admission check fails or answers
`required = false`, the join flow treats admission as not required and
silently requests the auto-join (fails open, no error reported); only a
successful check answering `required = true` routes through the waiting
room. -/
theorem C7_admission_check_fails_open (code : String) (jd : JoinData)
    (admReq : Option (Option Nat)) (s : AppState)
    (hcode : ¬ jsTrim code = "") (hcan : jd.canJoin = true) :
    (∀ admCheck : Option Bool, admCheck = none ∨ admCheck = some false →
      (handleJoinMeeting code (some jd) admCheck admReq s).shouldAutoJoin =
        true ∧
      (handleJoinMeeting code (some jd) admCheck admReq s).isWaiting =
        s.isWaiting ∧
      (handleJoinMeeting code (some jd) admCheck admReq s).errorLogs =
        s.errorLogs) ∧
    (∀ pos?,
      (handleJoinMeeting code (some jd) (some true) (some pos?) s).isWaiting =
        true ∧
      (handleJoinMeeting code (some jd) (some true) (some pos?)
          s).shouldAutoJoin = s.shouldAutoJoin) := by
  constructor
  · rintro admCheck (rfl | rfl) <;>
      simp [handleJoinMeeting, hcode, hcan]
  · intro pos?
    constructor <;> simp [handleJoinMeeting, hcode, hcan]

/-- C7 witness: the fail-open path at `required = false` and the waiting
path at `required = true`, at concrete inputs. -/
theorem C7_admission_check_fails_open_witness :
    (handleJoinMeeting "CODE" (some c7jd) (some false) none
        initApp).shouldAutoJoin = true ∧
    (handleJoinMeeting "CODE" (some c7jd) (some true) (some (some 2))
        initApp).isWaiting = true :=
  ⟨((C7_admission_check_fails_open "CODE" c7jd none initApp (by decide)
      rfl).1 (some false) (Or.inr rfl)).1,
   ((C7_admission_check_fails_open "CODE" c7jd none initApp (by decide)
      rfl).2 (some 2)).1⟩

/-- C1 witness: the amended behaviour at concrete tracks. -/
theorem C1_double_publish_witness :
    (startCamera (Track.mk "t2" "video")
        (startCamera (Track.mk "t1" "video")
          (readyW "m1" "T"))).producers.lookup "video" =
      some { pid := 1, track := Track.mk "t1" "video" } ∧
    (startScreenShare (Track.mk "s2" "video") none
        (startScreenShare (Track.mk "s1" "video") none
          (readyW "m1" "T"))).producers.lookup "screen" =
      some { pid := 1, track := Track.mk "s2" "video" } :=
  ⟨(C1_double_publish "m1" "T" (Track.mk "t1" "video") (Track.mk "t2" "video")
      (Track.mk "a1" "audio") (Track.mk "a2" "audio") rfl rfl rfl rfl).1.1,
   (C1_double_publish "m1" "T" (Track.mk "s1" "video") (Track.mk "s2" "video")
      (Track.mk "a1" "audio") (Track.mk "a2" "audio") rfl rfl rfl rfl).2.2.1⟩

end KCSMeet
